import Mathlib

/-!
Verification of the r6ops backend's hierarchical ownership authorization layer
(src/index.ts) as a shallow embedding: the Supabase store is explicit state
(a `Database` of row lists), each Express handler is a pure function from the
store and the authenticated principal to a `Response` (and, for write paths,
an updated store; for the chain-walk endpoints, also the ordered trace of
collection reads).  JavaScript request-body values are modelled by `JsVal`
(numbers as integers; no float-specific values are needed by these handlers),
and PostgREST's `.single()` — which errors when zero or several rows match —
is modelled by `singleRow`.
-/

/-- JavaScript values as they appear in request bodies and responses.
`vundefined` models an absent field. -/
inductive JsVal where
  | vundefined : JsVal
  | vnull : JsVal
  | vbool : Bool → JsVal
  | vnum : Int → JsVal
  | vstr : String → JsVal
  | vobj : List (String × JsVal) → JsVal
  | varr : List JsVal → JsVal

/-- JavaScript falsiness, as tested by `if (!stats)` in the stat POST
handlers: undefined, null, false, 0 and the empty string are falsy; every
object and array (including the empty object) is truthy. -/
def JsVal.falsy : JsVal → Bool
  | JsVal.vundefined => true
  | JsVal.vnull => true
  | JsVal.vbool b => !b
  | JsVal.vnum n => n == 0
  | JsVal.vstr s => s == ""
  | JsVal.vobj _ => false
  | JsVal.varr _ => false

/-- Row of the `alliances` collection: `alliances(id, manager_id)`. -/
structure Alliance where
  id : String
  manager_id : String
deriving DecidableEq, Repr

/-- Row of the `alliance_members` collection: `alliance_members(id, alliance_id)`. -/
structure AllianceMember where
  id : String
  alliance_id : String
deriving DecidableEq, Repr

/-- Row of the `battle_events` collection: `battle_events(id, alliance_member_id)`. -/
structure BattleEvent where
  id : String
  alliance_member_id : String
deriving DecidableEq, Repr

/-- Row of a `*_stats` collection: `(user_id, stats, created_at)`; the
timestamp is the opaque ISO string produced by `toISOString()`. -/
structure StatRecord where
  user_id : String
  stats : JsVal
  created_at : String

/-- Row of the `users` collection (only its key matters to the handlers). -/
structure UserRow where
  id : String
deriving DecidableEq, Repr

/-- The store state: one list of rows per collection the handlers touch. -/
structure Database where
  users : List UserRow := []
  alliances : List Alliance := []
  alliance_members : List AllianceMember := []
  battle_events : List BattleEvent := []
  military_stats : List StatRecord := []
  resources_stats : List StatRecord := []
  development_stats : List StatRecord := []

/-- PostgREST `.single()`: succeeds exactly when one row matches the filter;
zero or several matching rows produce an error object instead of data. -/
def singleRow {α : Type} (rows : List α) (p : α → Bool) : Option α :=
  match rows.filter p with
  | [r] => some r
  | _ => none

/-- The error message PostgREST attaches to a failed `.single()` read; the
handlers forward it verbatim via `error.message`. -/
def pgrstNoRowMsg : String := "JSON object requested, multiple (or no) rows returned"

/-- An HTTP response as the handlers build it: `res.json(body)` (status 200)
or `res.status(status).json(message object)`. -/
inductive Response where
  | json : JsVal → Response
  | errJson : Nat → String → Response

/-- The HTTP status code of a response. -/
def Response.status : Response → Nat
  | Response.json _ => 200
  | Response.errJson s _ => s

/-- The fixed 403 body of both chain-walk handlers. -/
def forbiddenAllianceMsg : String := "Forbidden: You are not the manager of this alliance"

/-- `select('*')` serialization of an `alliance_members` row. -/
def memberJson (m : AllianceMember) : JsVal :=
  JsVal.vobj [("id", JsVal.vstr m.id), ("alliance_id", JsVal.vstr m.alliance_id)]

/-- `select('*')` serialization of a `battle_events` row. -/
def eventJson (e : BattleEvent) : JsVal :=
  JsVal.vobj [("id", JsVal.vstr e.id), ("alliance_member_id", JsVal.vstr e.alliance_member_id)]

/-- `select('stats')` serialization of a stat row. -/
def statColJson (r : StatRecord) : JsVal :=
  JsVal.vobj [("stats", r.stats)]

/-- `select()` serialization of a full stat row, as returned after an upsert. -/
def statRowJson (r : StatRecord) : JsVal :=
  JsVal.vobj
    [("user_id", JsVal.vstr r.user_id), ("stats", r.stats),
     ("created_at", JsVal.vstr r.created_at)]

/-- One point-read against a named collection, recorded in execution order
by the chain-walk handlers. -/
inductive StoreRead where
  | alliances : StoreRead
  | alliance_members : StoreRead
  | battle_events : StoreRead
deriving DecidableEq, Repr

/-- Handler of `GET /api/alliance-members/:allianceId` (src/index.ts:256-285),
instrumented with the ordered list of collection reads it performs.  The
source reads the alliance with `.single()`; on `allianceError ||
alliance.manager_id !== userId` it answers 403 with the fixed body, else it
reads the members filtered by `alliance_id` and returns them. -/
def getAllianceMembersT (db : Database) (userId allianceId : String) :
    Response × List StoreRead :=
  match singleRow db.alliances (fun a => a.id == allianceId) with
  | none => (Response.errJson 403 forbiddenAllianceMsg, [StoreRead.alliances])
  | some alliance =>
    if alliance.manager_id != userId then
      (Response.errJson 403 forbiddenAllianceMsg, [StoreRead.alliances])
    else
      (Response.json (JsVal.varr
          ((db.alliance_members.filter (fun m => m.alliance_id == allianceId)).map memberJson)),
       [StoreRead.alliances, StoreRead.alliance_members])

/-- Handler of `GET /api/alliance-members/:allianceId`, response only. -/
def getAllianceMembers (db : Database) (userId allianceId : String) : Response :=
  (getAllianceMembersT db userId allianceId).fst

/-- Handler of `GET /api/battle-events/:allianceMemberId` (src/index.ts:288-327),
instrumented with the ordered list of collection reads.  The source reads the
member with `.single()` and on `memberError` answers 500 with
`memberError.message`; then reads the alliance with `.single()` and on
`allianceError || alliance.manager_id !== userId` answers 403 with the fixed
body; else it reads the battle events filtered by `alliance_member_id`. -/
def getBattleEventsT (db : Database) (userId allianceMemberId : String) :
    Response × List StoreRead :=
  match singleRow db.alliance_members (fun m => m.id == allianceMemberId) with
  | none => (Response.errJson 500 pgrstNoRowMsg, [StoreRead.alliance_members])
  | some member =>
    match singleRow db.alliances (fun a => a.id == member.alliance_id) with
    | none =>
        (Response.errJson 403 forbiddenAllianceMsg,
         [StoreRead.alliance_members, StoreRead.alliances])
    | some alliance =>
      if alliance.manager_id != userId then
        (Response.errJson 403 forbiddenAllianceMsg,
         [StoreRead.alliance_members, StoreRead.alliances])
      else
        (Response.json (JsVal.varr
            ((db.battle_events.filter
                (fun e => e.alliance_member_id == allianceMemberId)).map eventJson)),
         [StoreRead.alliance_members, StoreRead.alliances, StoreRead.battle_events])

/-- Handler of `GET /api/battle-events/:allianceMemberId`, response only. -/
def getBattleEvents (db : Database) (userId allianceMemberId : String) : Response :=
  (getBattleEventsT db userId allianceMemberId).fst

/-- Handler of `GET /api/user` (src/index.ts:40-58): `.single()` read of the
`users` row keyed by the principal; a store error is answered as 500 with
`error.message`. -/
def getUser (db : Database) (userId : String) : Response :=
  match singleRow db.users (fun u => u.id == userId) with
  | none => Response.errJson 500 pgrstNoRowMsg
  | some u => Response.json (JsVal.vobj [("id", JsVal.vstr u.id)])

/-- Modelled from the spec: the Entity Store collaborator's
`upsert(collection, key, fields)` for the `*_stats` collections (spec §4.4,
§6) — create-or-replace keyed on `user_id`; the row for that key is replaced
by the new fields, every other row is untouched.  The store itself is an
external collaborator, so its key-conflict semantics follow the spec's
words. -/
def upsertStat (tbl : List StatRecord) (r : StatRecord) : List StatRecord :=
  tbl.filter (fun x => x.user_id != r.user_id) ++ [r]

/-- Shared body of `GET /api/military-stats`, `GET /api/resources-stats` and
`GET /api/development-stats` (src/index.ts:101-118, 146-163, 191-208):
`select('stats').eq('user_id', userId)` — the rows of the authenticated
principal, `stats` column only, as a JSON array. -/
def getStats (tbl : List StatRecord) (userId : String) : Response :=
  Response.json (JsVal.varr ((tbl.filter (fun r => r.user_id == userId)).map statColJson))

/-- Shared body of `POST /api/military-stats`, `POST /api/resources-stats`
and `POST /api/development-stats` (src/index.ts:121-143, 166-188, 211-233):
`if (!stats) return 400 with body error: Stats required`; otherwise upsert
`(user_id := authenticated principal, stats, created_at := now)` and return
the upserted row.  Returns the response and the updated collection. -/
def postStats (tbl : List StatRecord) (userId : String) (stats : JsVal) (now : String) :
    Response × List StatRecord :=
  if stats.falsy then
    (Response.errJson 400 "Stats required", tbl)
  else
    (Response.json (JsVal.varr [statRowJson ⟨userId, stats, now⟩]),
     upsertStat tbl ⟨userId, stats, now⟩)

/-- Handler of `GET /api/military-stats`. -/
def getMilitaryStats (db : Database) (userId : String) : Response :=
  getStats db.military_stats userId

/-- Handler of `GET /api/resources-stats`. -/
def getResourcesStats (db : Database) (userId : String) : Response :=
  getStats db.resources_stats userId

/-- Handler of `GET /api/development-stats`. -/
def getDevelopmentStats (db : Database) (userId : String) : Response :=
  getStats db.development_stats userId

/-- Handler of `POST /api/military-stats`: response and updated store. -/
def postMilitaryStats (db : Database) (userId : String) (stats : JsVal) (now : String) :
    Response × Database :=
  ((postStats db.military_stats userId stats now).fst,
   { db with military_stats := (postStats db.military_stats userId stats now).snd })

/-- Handler of `POST /api/resources-stats`: response and updated store. -/
def postResourcesStats (db : Database) (userId : String) (stats : JsVal) (now : String) :
    Response × Database :=
  ((postStats db.resources_stats userId stats now).fst,
   { db with resources_stats := (postStats db.resources_stats userId stats now).snd })

/-- Handler of `POST /api/development-stats`: response and updated store. -/
def postDevelopmentStats (db : Database) (userId : String) (stats : JsVal) (now : String) :
    Response × Database :=
  ((postStats db.development_stats userId stats now).fst,
   { db with development_stats := (postStats db.development_stats userId stats now).snd })

/-- The ownership-chain walk performed by the battle-events handler
(src/index.ts:294-312): `alliance_members` row by id, then its parent
`alliances` row by `alliance_id`, then that alliance's `manager_id`; `none`
when either `.single()` read finds no row.  This is the spec's one-hop
`resolveController(AllianceMember, id)`. -/
def resolveMemberController (db : Database) (allianceMemberId : String) : Option String :=
  match singleRow db.alliance_members (fun m => m.id == allianceMemberId) with
  | none => none
  | some member =>
    match singleRow db.alliances (fun a => a.id == member.alliance_id) with
    | none => none
    | some alliance => some alliance.manager_id

/-- Modelled from the spec: two-hop `resolveController(BattleEvent, id)`
(spec §4.2) — the repository has no endpoint keyed by a battle-event id
(its battle-events route is keyed by the member id), so the event hop
follows the spec's words: look up the BattleEvent by id, `NotFound` if
absent, else resolve its `alliance_member_id` by the one-hop procedure. -/
def resolveBattleEventController (db : Database) (eventId : String) : Option String :=
  match singleRow db.battle_events (fun e => e.id == eventId) with
  | none => none
  | some e => resolveMemberController db e.alliance_member_id

/-- Authorization outcome of the Decision Point (spec §4.3). -/
inductive Decision where
  | allow : Decision
  | denyForbidden : Decision
  | denyNotFound : Decision
deriving DecidableEq, Repr

/-- Modelled from the spec: the Decision Point's rule for indirect-ownership
resources (spec §4.3) — `NotFound` from the resolver yields `Deny(NotFound)`;
a resolved controller yields `Allow` exactly when it equals the principal,
else `Deny(Forbidden)`. -/
def decideAuth (principal : String) : Option String → Decision
  | none => Decision.denyNotFound
  | some c => if c == principal then Decision.allow else Decision.denyForbidden

/-- An empty store. -/
def dbEmpty : Database := {}

/-- The spec's scenario store: principal u1 manages alliance a1, which has
member m1, which has battle event e1. -/
def dbScenario : Database :=
  { alliances := [⟨"a1", "u1"⟩],
    alliance_members := [⟨"m1", "a1"⟩],
    battle_events := [⟨"e1", "m1"⟩] }

/-! ### Store lemmas -/

/-- Rows surviving the removal pass of an upsert never match the upserted key. -/
theorem filter_bne_filter_beq (tbl : List StatRecord) (u : String) :
    (tbl.filter (fun x => x.user_id != u)).filter (fun x => x.user_id == u) = [] := by
  rw [List.filter_filter]
  apply List.filter_eq_nil_iff.mpr
  intro a _
  simp [bne]

/-- After an upsert, exactly the upserted row carries the upserted key. -/
theorem upsertStat_filter_self (tbl : List StatRecord) (u : String) (s : JsVal) (n : String) :
    (upsertStat tbl ⟨u, s, n⟩).filter (fun x => x.user_id == u) = [⟨u, s, n⟩] := by
  simp [upsertStat, List.filter_append, filter_bne_filter_beq]

/-- An upsert leaves the rows of every other key untouched. -/
theorem upsertStat_filter_other (tbl : List StatRecord) (u : String) (s : JsVal) (n : String)
    (q : String) (h : q ≠ u) :
    (upsertStat tbl ⟨u, s, n⟩).filter (fun x => x.user_id == q)
      = tbl.filter (fun x => x.user_id == q) := by
  have hr : ((⟨u, s, n⟩ : StatRecord).user_id == q) = false :=
    beq_eq_false_iff_ne.mpr (Ne.symm h)
  rw [upsertStat, List.filter_append, List.filter_filter]
  simp only [List.filter_cons, hr, Bool.false_eq_true, List.filter_nil,
    List.append_nil, reduceIte]
  apply List.filter_congr
  intro a _
  by_cases hq : a.user_id == q
  · have hne : (a.user_id != (⟨u, s, n⟩ : StatRecord).user_id) = true :=
      bne_iff_ne.mpr (by rw [eq_of_beq hq]; exact h)
    rw [hq, hne]
    rfl
  · rw [Bool.eq_false_iff.mpr hq]
    simp

/-- Every row present after an upsert was already present or is the upserted row. -/
theorem mem_upsertStat (tbl : List StatRecord) (r x : StatRecord)
    (hx : x ∈ upsertStat tbl r) : x ∈ tbl ∨ x = r := by
  simp only [upsertStat, List.mem_append, List.mem_filter, List.mem_singleton] at hx
  rcases hx with ⟨hmem, _⟩ | hx
  · exact Or.inl hmem
  · exact Or.inr hx

/-! ### Stat endpoint claims -/

/-- C4: for every principal and stat kind, two successive successful upserts
`upsert(P, kind, s1)` then `upsert(P, kind, s2)` leave exactly one stored
record keyed by `(P, kind)`, and its `stats` payload equals `s2` (most recent
write wins); `created_at` timestamps are not constrained. -/
theorem upsert_last_write_wins
    (db : Database) (P : String) (s1 s2 : JsVal) (n1 n2 : String)
    (h1 : s1.falsy = false) (h2 : s2.falsy = false) :
    (((postMilitaryStats (postMilitaryStats db P s1 n1).snd P s2 n2).snd.military_stats.filter
        (fun r => r.user_id == P)).map (fun r => r.stats) = [s2])
  ∧ (((postResourcesStats (postResourcesStats db P s1 n1).snd P s2 n2).snd.resources_stats.filter
        (fun r => r.user_id == P)).map (fun r => r.stats) = [s2])
  ∧ (((postDevelopmentStats (postDevelopmentStats db P s1 n1).snd P s2 n2).snd.development_stats.filter
        (fun r => r.user_id == P)).map (fun r => r.stats) = [s2]) := by
  refine ⟨?_, ?_, ?_⟩ <;>
    simp [postMilitaryStats, postResourcesStats, postDevelopmentStats, postStats, h1, h2,
      upsertStat_filter_self]

/-- Witness for C4 at the spec's scenario: two military upserts by u1, the
second with attack = 12, leave exactly the payload attack = 12 stored. -/
theorem upsert_last_write_wins_witness :
    (((postMilitaryStats
          (postMilitaryStats dbEmpty "u1" (JsVal.vobj [("attack", JsVal.vnum 10)]) "t1").snd
          "u1" (JsVal.vobj [("attack", JsVal.vnum 12)]) "t2").snd.military_stats.filter
        (fun r => r.user_id == "u1")).map (fun r => r.stats)
      = [JsVal.vobj [("attack", JsVal.vnum 12)]]) :=
  (upsert_last_write_wins dbEmpty "u1" (JsVal.vobj [("attack", JsVal.vnum 10)])
    (JsVal.vobj [("attack", JsVal.vnum 12)]) "t1" "t2" rfl rfl).1

/-- A stat POST leaves the rows of every principal other than the writer
untouched (whether or not the payload is accepted). -/
theorem postStats_filter_other (tbl : List StatRecord) (P : String) (s : JsVal)
    (now : String) (Q : String) (hQP : Q ≠ P) :
    (postStats tbl P s now).snd.filter (fun r => r.user_id == Q)
      = tbl.filter (fun r => r.user_id == Q) := by
  by_cases hf : s.falsy
  · simp [postStats, hf]
  · have hf' : s.falsy = false := Bool.eq_false_iff.mpr hf
    simp only [postStats, hf', Bool.false_eq_true, reduceIte]
    exact upsertStat_filter_other tbl P s now Q hQP

/-- After a stat POST by P, a GET as a different principal with no rows of
its own yields the empty list. -/
theorem postStats_read_other_empty (tbl : List StatRecord) (P : String) (s : JsVal)
    (now : String) (Q : String) (hQP : Q ≠ P)
    (h0 : tbl.filter (fun r => r.user_id == Q) = []) :
    getStats (postStats tbl P s now).snd Q = Response.json (JsVal.varr []) := by
  rw [getStats, postStats_filter_other tbl P s now Q hQP, h0]
  rfl

/-- Every row present after a stat POST by P was already present or carries
P's key. -/
theorem postStats_mem (tbl : List StatRecord) (P : String) (s : JsVal) (now : String)
    (r : StatRecord) (hr : r ∈ (postStats tbl P s now).snd) :
    r ∈ tbl ∨ r.user_id = P := by
  by_cases hf : s.falsy
  · simp [postStats, hf] at hr
    exact Or.inl hr
  · have hf' : s.falsy = false := Bool.eq_false_iff.mpr hf
    simp only [postStats, hf', Bool.false_eq_true, reduceIte] at hr
    rcases mem_upsertStat tbl ⟨P, s, now⟩ r hr with hmem | heq
    · exact Or.inl hmem
    · exact Or.inr (by rw [heq])

/-- C5: for every stat kind (military, resources, development), a write
always targets the authenticated principal's own key: writing as P leaves
every other principal Q's rows untouched, a subsequent read as Q (with no
rows of its own) yields the empty list rather than P's data, and every row
present after the write was already present or belongs to P. -/
theorem stat_write_isolation
    (db : Database) (P Q : String) (s : JsVal) (now : String) (hQP : Q ≠ P) :
    (((postMilitaryStats db P s now).snd.military_stats.filter (fun r => r.user_id == Q)
        = db.military_stats.filter (fun r => r.user_id == Q))
      ∧ (db.military_stats.filter (fun r => r.user_id == Q) = [] →
          getMilitaryStats (postMilitaryStats db P s now).snd Q
            = Response.json (JsVal.varr []))
      ∧ (∀ r, r ∈ (postMilitaryStats db P s now).snd.military_stats →
          r ∈ db.military_stats ∨ r.user_id = P))
  ∧ (((postResourcesStats db P s now).snd.resources_stats.filter (fun r => r.user_id == Q)
        = db.resources_stats.filter (fun r => r.user_id == Q))
      ∧ (db.resources_stats.filter (fun r => r.user_id == Q) = [] →
          getResourcesStats (postResourcesStats db P s now).snd Q
            = Response.json (JsVal.varr []))
      ∧ (∀ r, r ∈ (postResourcesStats db P s now).snd.resources_stats →
          r ∈ db.resources_stats ∨ r.user_id = P))
  ∧ (((postDevelopmentStats db P s now).snd.development_stats.filter (fun r => r.user_id == Q)
        = db.development_stats.filter (fun r => r.user_id == Q))
      ∧ (db.development_stats.filter (fun r => r.user_id == Q) = [] →
          getDevelopmentStats (postDevelopmentStats db P s now).snd Q
            = Response.json (JsVal.varr []))
      ∧ (∀ r, r ∈ (postDevelopmentStats db P s now).snd.development_stats →
          r ∈ db.development_stats ∨ r.user_id = P)) := by
  refine ⟨⟨?_, ?_, ?_⟩, ⟨?_, ?_, ?_⟩, ⟨?_, ?_, ?_⟩⟩
  · exact postStats_filter_other db.military_stats P s now Q hQP
  · exact fun h0 => postStats_read_other_empty db.military_stats P s now Q hQP h0
  · exact fun r hr => postStats_mem db.military_stats P s now r hr
  · exact postStats_filter_other db.resources_stats P s now Q hQP
  · exact fun h0 => postStats_read_other_empty db.resources_stats P s now Q hQP h0
  · exact fun r hr => postStats_mem db.resources_stats P s now r hr
  · exact postStats_filter_other db.development_stats P s now Q hQP
  · exact fun h0 => postStats_read_other_empty db.development_stats P s now Q hQP h0
  · exact fun r hr => postStats_mem db.development_stats P s now r hr

/-- Witness for C5: after u1 writes a payload of each stat kind into an
empty store, a read as u2 yields the empty list for each kind. -/
theorem stat_write_isolation_witness :
    getMilitaryStats
        (postMilitaryStats dbEmpty "u1" (JsVal.vobj [("attack", JsVal.vnum 10)]) "t1").snd
        "u2"
      = Response.json (JsVal.varr [])
  ∧ getResourcesStats
        (postResourcesStats dbEmpty "u1" (JsVal.vobj [("gold", JsVal.vnum 5)]) "t1").snd
        "u2"
      = Response.json (JsVal.varr [])
  ∧ getDevelopmentStats
        (postDevelopmentStats dbEmpty "u1" (JsVal.vobj [("tech", JsVal.vnum 3)]) "t1").snd
        "u2"
      = Response.json (JsVal.varr []) :=
  ⟨((stat_write_isolation dbEmpty "u1" "u2" (JsVal.vobj [("attack", JsVal.vnum 10)]) "t1"
      (by decide)).1).2.1 rfl,
   ((stat_write_isolation dbEmpty "u1" "u2" (JsVal.vobj [("gold", JsVal.vnum 5)]) "t1"
      (by decide)).2.1).2.1 rfl,
   ((stat_write_isolation dbEmpty "u1" "u2" (JsVal.vobj [("tech", JsVal.vnum 3)]) "t1"
      (by decide)).2.2).2.1 rfl⟩

/-- C6 (amended): the stat POST handlers reject with 400 and perform no store
write exactly when the `stats` field is JavaScript-falsy (absent/undefined,
null, false, 0 or the empty string); every truthy payload — including the
empty object — is accepted without an InvalidPayload failure. -/
theorem stat_post_falsy_iff_rejected
    (db : Database) (u : String) (s : JsVal) (now : String) :
    (s.falsy = true →
        postMilitaryStats db u s now = (Response.errJson 400 "Stats required", db)
      ∧ postResourcesStats db u s now = (Response.errJson 400 "Stats required", db)
      ∧ postDevelopmentStats db u s now = (Response.errJson 400 "Stats required", db))
  ∧ (s.falsy = false →
        (postMilitaryStats db u s now).fst
            = Response.json (JsVal.varr [statRowJson ⟨u, s, now⟩])
      ∧ (postResourcesStats db u s now).fst
            = Response.json (JsVal.varr [statRowJson ⟨u, s, now⟩])
      ∧ (postDevelopmentStats db u s now).fst
            = Response.json (JsVal.varr [statRowJson ⟨u, s, now⟩])) := by
  constructor
  · intro hf
    refine ⟨?_, ?_, ?_⟩ <;>
      simp [postMilitaryStats, postResourcesStats, postDevelopmentStats, postStats, hf]
  · intro hf
    refine ⟨?_, ?_, ?_⟩ <;>
      simp [postMilitaryStats, postResourcesStats, postDevelopmentStats, postStats, hf]

/-- Witness for C6 (amended): an absent `stats` field is rejected with 400
and the store is unchanged. -/
theorem stat_post_falsy_iff_rejected_witness :
    postMilitaryStats dbEmpty "u1" JsVal.vundefined "t0"
      = (Response.errJson 400 "Stats required", dbEmpty) :=
  ((stat_post_falsy_iff_rejected dbEmpty "u1" JsVal.vundefined "t0").1 rfl).1

/-- Counterexample to C6 as stated: the empty-object payload is an empty
payload, yet the handler does not reject it with 400 — it stores it and
answers 200. -/
theorem empty_object_payload_not_rejected :
    ((postMilitaryStats dbEmpty "u1" (JsVal.vobj []) "t0").fst).status = 200
  ∧ (postMilitaryStats dbEmpty "u1" (JsVal.vobj []) "t0").snd.military_stats
      = [⟨"u1", JsVal.vobj [], "t0"⟩] :=
  ⟨rfl, rfl⟩

/-- C10: a principal with no stored rows of a stat kind gets a successful
empty-list response from the corresponding GET endpoint, never a NotFound or
any other failure. -/
theorem stats_get_no_record_empty_ok
    (db : Database) (u : String)
    (hm : db.military_stats.filter (fun r => r.user_id == u) = [])
    (hrs : db.resources_stats.filter (fun r => r.user_id == u) = [])
    (hd : db.development_stats.filter (fun r => r.user_id == u) = []) :
    getMilitaryStats db u = Response.json (JsVal.varr [])
  ∧ getResourcesStats db u = Response.json (JsVal.varr [])
  ∧ getDevelopmentStats db u = Response.json (JsVal.varr []) := by
  refine ⟨?_, ?_, ?_⟩ <;>
    simp [getMilitaryStats, getResourcesStats, getDevelopmentStats, getStats, hm, hrs, hd]

/-- Witness for C10 at the empty store. -/
theorem stats_get_no_record_empty_ok_witness :
    getMilitaryStats dbEmpty "u1" = Response.json (JsVal.varr [])
  ∧ getResourcesStats dbEmpty "u1" = Response.json (JsVal.varr [])
  ∧ getDevelopmentStats dbEmpty "u1" = Response.json (JsVal.varr []) :=
  stats_get_no_record_empty_ok dbEmpty "u1" rfl rfl rfl

/-! ### Ownership-chain claims -/

/-- C2: whenever the requested alliance exists and its `manager_id` is P,
principal P's alliance-members read is allowed and returns the member rows
(including each member of that alliance), while every other principal Q gets
a 403 Forbidden with no member data. -/
theorem alliance_members_manager_only
    (db : Database) (m : AllianceMember) (al : Alliance) (P : String)
    (hm : m ∈ db.alliance_members)
    (hal : singleRow db.alliances (fun a => a.id == m.alliance_id) = some al)
    (hmn : al.manager_id = P) :
    (getAllianceMembers db P m.alliance_id = Response.json (JsVal.varr
        ((db.alliance_members.filter (fun x => x.alliance_id == m.alliance_id)).map memberJson)))
  ∧ memberJson m
      ∈ (db.alliance_members.filter (fun x => x.alliance_id == m.alliance_id)).map memberJson
  ∧ (∀ Q, Q ≠ P →
      getAllianceMembers db Q m.alliance_id = Response.errJson 403 forbiddenAllianceMsg) := by
  refine ⟨?_, ?_, ?_⟩
  · simp [getAllianceMembers, getAllianceMembersT, hal, hmn]
  · exact List.mem_map_of_mem memberJson (List.mem_filter.mpr ⟨hm, by simp⟩)
  · intro Q hQ
    have hb : (al.manager_id != Q) = true := bne_iff_ne.mpr (by rw [hmn]; exact Ne.symm hQ)
    simp [getAllianceMembers, getAllianceMembersT, hal, hb]

/-- Witness for C2 at the scenario store: manager u1 reads member m1 of
alliance a1; non-manager u2 gets the fixed 403. -/
theorem alliance_members_manager_only_witness :
    getAllianceMembers dbScenario "u1" "a1"
      = Response.json (JsVal.varr [memberJson ⟨"m1", "a1"⟩])
  ∧ getAllianceMembers dbScenario "u2" "a1" = Response.errJson 403 forbiddenAllianceMsg :=
  ⟨(alliance_members_manager_only dbScenario ⟨"m1", "a1"⟩ ⟨"a1", "u1"⟩ "u1"
      (by decide) rfl rfl).1,
   (alliance_members_manager_only dbScenario ⟨"m1", "a1"⟩ ⟨"a1", "u1"⟩ "u1"
      (by decide) rfl rfl).2.2 "u2" (by decide)⟩

/-- C1 (amended): a missing row in an authorization chain walk never yields a
404 resource-not-found response and never crashes (the handlers are total
functions): the alliance-members handler answers the same 403 Deny(Forbidden)
as a manager mismatch when the alliance row is missing, and the battle-events
handler answers 500 carrying the store's error message when the member row is
missing, and 403 Deny(Forbidden) when the alliance row is missing. -/
theorem missing_hop_yields_forbidden_or_500 :
    (∀ (db : Database) (u aid : String),
        singleRow db.alliances (fun a => a.id == aid) = none →
        getAllianceMembers db u aid = Response.errJson 403 forbiddenAllianceMsg)
  ∧ (∀ (db : Database) (u mid : String),
        singleRow db.alliance_members (fun x => x.id == mid) = none →
        getBattleEvents db u mid = Response.errJson 500 pgrstNoRowMsg)
  ∧ (∀ (db : Database) (u mid : String) (m : AllianceMember),
        singleRow db.alliance_members (fun x => x.id == mid) = some m →
        singleRow db.alliances (fun a => a.id == m.alliance_id) = none →
        getBattleEvents db u mid = Response.errJson 403 forbiddenAllianceMsg)
  ∧ (∀ (db : Database) (u i : String),
        (getAllianceMembers db u i).status ≠ 404 ∧ (getBattleEvents db u i).status ≠ 404) := by
  refine ⟨?_, ?_, ?_, ?_⟩
  · intro db u aid h
    simp [getAllianceMembers, getAllianceMembersT, h]
  · intro db u mid h
    simp [getBattleEvents, getBattleEventsT, h]
  · intro db u mid m h1 h2
    simp [getBattleEvents, getBattleEventsT, h1, h2]
  · intro db u i
    constructor
    · cases h : singleRow db.alliances (fun a => a.id == i) with
      | none => simp [getAllianceMembers, getAllianceMembersT, h, Response.status]
      | some al =>
        by_cases hb : (al.manager_id != u) = true
        · simp [getAllianceMembers, getAllianceMembersT, h, hb, Response.status]
        · simp [getAllianceMembers, getAllianceMembersT, h, hb, Response.status]
    · cases h1 : singleRow db.alliance_members (fun x => x.id == i) with
      | none => simp [getBattleEvents, getBattleEventsT, h1, Response.status]
      | some m =>
        cases h2 : singleRow db.alliances (fun a => a.id == m.alliance_id) with
        | none => simp [getBattleEvents, getBattleEventsT, h1, h2, Response.status]
        | some al =>
          by_cases hb : (al.manager_id != u) = true
          · simp [getBattleEvents, getBattleEventsT, h1, h2, hb, Response.status]
          · simp [getBattleEvents, getBattleEventsT, h1, h2, hb, Response.status]

/-- Witness for C1 (amended): with an empty store, the battle-events handler
answers 500 with the store's message for the missing member row. -/
theorem missing_hop_yields_forbidden_or_500_witness :
    getBattleEvents dbEmpty "u1" "m1" = Response.errJson 500 pgrstNoRowMsg :=
  missing_hop_yields_forbidden_or_500.2.1 dbEmpty "u1" "m1" rfl

/-- Counterexample to C1 as stated: the requested alliance a1 does not exist
in the empty store, yet the alliance-members handler answers the 403
Deny(Forbidden) response — not a 404 resource-not-found. -/
theorem missing_alliance_answered_forbidden :
    getAllianceMembers dbEmpty "u1" "a1" = Response.errJson 403 forbiddenAllianceMsg
  ∧ (getAllianceMembers dbEmpty "u1" "a1").status = 403 :=
  ⟨rfl, rfl⟩

/-- C3: for a BattleEvent row whose chain resolves to manager P, the two-hop
check (event, then member, then alliance) decides exactly as the composition
of the event lookup with the one-hop AllianceMember check, and the
battle-events handler realizes that decision: 200 for P, the fixed 403 for
anyone else. -/
theorem two_hop_equals_composed_one_hop
    (db : Database) (e : BattleEvent) (P u : String)
    (he : singleRow db.battle_events (fun x => x.id == e.id) = some e)
    (hc : resolveMemberController db e.alliance_member_id = some P) :
    decideAuth u (resolveBattleEventController db e.id)
        = decideAuth u (resolveMemberController db e.alliance_member_id)
  ∧ (decideAuth u (resolveBattleEventController db e.id) = Decision.allow ↔ u = P)
  ∧ (u = P → (getBattleEvents db u e.alliance_member_id).status = 200)
  ∧ (u ≠ P → getBattleEvents db u e.alliance_member_id
        = Response.errJson 403 forbiddenAllianceMsg) := by
  have hkey : resolveBattleEventController db e.id
      = resolveMemberController db e.alliance_member_id := by
    simp [resolveBattleEventController, he]
  obtain ⟨m, h1, al, h2, hman⟩ :
      ∃ m, singleRow db.alliance_members (fun x => x.id == e.alliance_member_id) = some m
        ∧ ∃ al, singleRow db.alliances (fun a => a.id == m.alliance_id) = some al
            ∧ al.manager_id = P := by
    simp only [resolveMemberController] at hc
    cases hm1 : singleRow db.alliance_members (fun x => x.id == e.alliance_member_id) with
    | none => simp [hm1] at hc
    | some m =>
      rw [hm1] at hc
      cases hm2 : singleRow db.alliances (fun a => a.id == m.alliance_id) with
      | none => simp [hm2] at hc
      | some al =>
        simp only [hm2, Option.some.injEq] at hc
        exact ⟨m, rfl, al, hm2, hc⟩
  refine ⟨by rw [hkey], ?_, ?_, ?_⟩
  · rw [hkey, hc]
    by_cases hup : u = P
    · simp [decideAuth, hup]
    · have hne : (P == u) = false := beq_eq_false_iff_ne.mpr (Ne.symm hup)
      simp [decideAuth, hne, hup]
  · intro hup
    subst hup
    simp [getBattleEvents, getBattleEventsT, h1, h2, hman, Response.status]
  · intro hup
    have hb : (al.manager_id != u) = true := bne_iff_ne.mpr (by rw [hman]; exact Ne.symm hup)
    simp [getBattleEvents, getBattleEventsT, h1, h2, hb]

/-- Witness for C3 at the scenario store: event e1's chain resolves to u1,
and the battle-events handler answers the fixed 403 to u2. -/
theorem two_hop_equals_composed_one_hop_witness :
    getBattleEvents dbScenario "u2" "m1" = Response.errJson 403 forbiddenAllianceMsg :=
  (two_hop_equals_composed_one_hop dbScenario ⟨"e1", "m1"⟩ "u1" "u2" rfl rfl).2.2.2
    (by decide)

/-- C7 (amended): every 403 denial of the chain-walk handlers carries the one
fixed body and no store detail, but store-error (500) responses surface the
store's error message verbatim rather than a generic message (shown for the
battle-events member read and the user read). -/
theorem denial_bodies_fixed_store_error_verbatim :
    (∀ (db : Database) (u i s : String),
        getAllianceMembers db u i = Response.errJson 403 s → s = forbiddenAllianceMsg)
  ∧ (∀ (db : Database) (u i s : String),
        getBattleEvents db u i = Response.errJson 403 s → s = forbiddenAllianceMsg)
  ∧ (∀ (db : Database) (u mid : String),
        singleRow db.alliance_members (fun x => x.id == mid) = none →
        getBattleEvents db u mid = Response.errJson 500 pgrstNoRowMsg)
  ∧ (∀ (db : Database) (u : String),
        singleRow db.users (fun x => x.id == u) = none →
        getUser db u = Response.errJson 500 pgrstNoRowMsg) := by
  refine ⟨?_, ?_, ?_, ?_⟩
  · intro db u i s h
    cases hx : singleRow db.alliances (fun a => a.id == i) with
    | none =>
      simp [getAllianceMembers, getAllianceMembersT, hx] at h
      exact h.symm
    | some al =>
      by_cases hb : (al.manager_id != u) = true
      · simp [getAllianceMembers, getAllianceMembersT, hx, hb] at h
        exact h.symm
      · simp [getAllianceMembers, getAllianceMembersT, hx, hb] at h
  · intro db u i s h
    cases h1 : singleRow db.alliance_members (fun x => x.id == i) with
    | none =>
      simp [getBattleEvents, getBattleEventsT, h1] at h
    | some m =>
      cases h2 : singleRow db.alliances (fun a => a.id == m.alliance_id) with
      | none =>
        simp [getBattleEvents, getBattleEventsT, h1, h2] at h
        exact h.symm
      | some al =>
        by_cases hb : (al.manager_id != u) = true
        · simp [getBattleEvents, getBattleEventsT, h1, h2, hb] at h
          exact h.symm
        · simp [getBattleEvents, getBattleEventsT, h1, h2, hb] at h
  · intro db u mid h
    simp [getBattleEvents, getBattleEventsT, h]
  · intro db u h
    simp [getUser, h]

/-- Witness for C7 (amended): at the scenario store, the battle-events read
for an absent member row answers 500 with the store's message. -/
theorem denial_bodies_fixed_witness :
    getBattleEvents dbScenario "u1" "m9" = Response.errJson 500 pgrstNoRowMsg :=
  denial_bodies_fixed_store_error_verbatim.2.2.1 dbScenario "u1" "m9" rfl

/-- Counterexample to C7 as stated: the user read's store failure is answered
with the store's raw error string in the body, which differs from the
generic message of the error middleware. -/
theorem store_error_message_surfaced :
    getUser dbEmpty "u1" = Response.errJson 500 pgrstNoRowMsg
  ∧ getBattleEvents dbEmpty "u1" "m9" = Response.errJson 500 pgrstNoRowMsg
  ∧ pgrstNoRowMsg ≠ "Something went wrong!" :=
  ⟨rfl, rfl, by decide⟩

/-- C8: in both chain-walk handlers every read of the target collection is
preceded by the authorization-chain reads (the read trace containing the
target read is exactly chain-reads-then-target), and whenever the response
is not a success — in particular on every Deny — no read of the target
collection is performed. -/
theorem auth_check_precedes_target_fetch :
    (∀ (db : Database) (u aid : String),
        (StoreRead.alliance_members ∈ (getAllianceMembersT db u aid).snd →
          (getAllianceMembersT db u aid).snd
            = [StoreRead.alliances, StoreRead.alliance_members])
      ∧ ((getAllianceMembersT db u aid).fst.status ≠ 200 →
          StoreRead.alliance_members ∉ (getAllianceMembersT db u aid).snd))
  ∧ (∀ (db : Database) (u mid : String),
        (StoreRead.battle_events ∈ (getBattleEventsT db u mid).snd →
          (getBattleEventsT db u mid).snd
            = [StoreRead.alliance_members, StoreRead.alliances, StoreRead.battle_events])
      ∧ ((getBattleEventsT db u mid).fst.status ≠ 200 →
          StoreRead.battle_events ∉ (getBattleEventsT db u mid).snd)) := by
  constructor
  · intro db u aid
    cases h : singleRow db.alliances (fun a => a.id == aid) with
    | none => simp [getAllianceMembersT, h, Response.status]
    | some al =>
      by_cases hb : (al.manager_id != u) = true
      · simp [getAllianceMembersT, h, hb, Response.status]
      · simp [getAllianceMembersT, h, hb, Response.status]
  · intro db u mid
    cases h1 : singleRow db.alliance_members (fun x => x.id == mid) with
    | none => simp [getBattleEventsT, h1, Response.status]
    | some m =>
      cases h2 : singleRow db.alliances (fun a => a.id == m.alliance_id) with
      | none => simp [getBattleEventsT, h1, h2, Response.status]
      | some al =>
        by_cases hb : (al.manager_id != u) = true
        · simp [getBattleEventsT, h1, h2, hb, Response.status]
        · simp [getBattleEventsT, h1, h2, hb, Response.status]

/-- Witness for C8: a denied battle-events request at the scenario store
performs no read of the battle_events collection. -/
theorem auth_check_precedes_target_fetch_witness :
    StoreRead.battle_events ∉ (getBattleEventsT dbScenario "u2" "m1").snd :=
  (auth_check_precedes_target_fetch.2 dbScenario "u2" "m1").2 (by decide)

/-- C9: a caller who is not the manager of the requested alliance receives
the identical 403 response whether the alliance row exists (managed by
someone else) or does not exist at all — the endpoint does not reveal
alliance existence to non-managers. -/
theorem nonmanager_indistinguishable
    (db1 db2 : Database) (u aid : String) (al : Alliance)
    (h1 : singleRow db1.alliances (fun a => a.id == aid) = none)
    (h2 : singleRow db2.alliances (fun a => a.id == aid) = some al)
    (h3 : al.manager_id ≠ u) :
    getAllianceMembers db1 u aid = Response.errJson 403 forbiddenAllianceMsg
  ∧ getAllianceMembers db2 u aid = Response.errJson 403 forbiddenAllianceMsg
  ∧ getAllianceMembers db1 u aid = getAllianceMembers db2 u aid := by
  have hb : (al.manager_id != u) = true := bne_iff_ne.mpr h3
  refine ⟨?_, ?_, ?_⟩
  · simp [getAllianceMembers, getAllianceMembersT, h1]
  · simp [getAllianceMembers, getAllianceMembersT, h2, hb]
  · simp [getAllianceMembers, getAllianceMembersT, h1, h2, hb]

/-- Witness for C9: for non-manager u2, a store without alliance a1 and the
scenario store (a1 managed by u1) produce the same response. -/
theorem nonmanager_indistinguishable_witness :
    getAllianceMembers dbEmpty "u2" "a1" = getAllianceMembers dbScenario "u2" "a1" :=
  (nonmanager_indistinguishable dbEmpty dbScenario "u2" "a1" ⟨"a1", "u1"⟩ rfl rfl
    (by decide)).2.2
